import Mathlib

/-
Verification of the chat-state reconciliation logic of the Rovoxa chat
application (React/Next.js frontend).  The definitions below are a shallow
embedding of:
  * the title-derivation code of the chat POST route,
  * the wire-record normalizers and the useChatHistory hook
    (fetchChatHistory / clearChatHistory), and
  * the ChatUIWithHistory component (handleSubmit, handleSelectChat,
    handleNewChat, allMessages).
Impure JavaScript inputs (Date.now(), Math.random(), Date parsing and string
coercion, crypto UUIDs) are modelled by an explicit environment record, and
each asynchronous operation is modelled as a function of the state and of the
outcome of its single network call, consistent with the single-threaded
event-loop execution of the original code.
-/

namespace Rovoxa

/-! ## JavaScript string primitives -/

/-- The character class matched by the regex class backslash-w in JavaScript:
ASCII letters, digits and underscore. -/
def jsIsWordChar (c : Char) : Bool :=
  c.isAlphanum || c = '_'

/-- The character class matched by the regex class backslash-s in JavaScript:
ASCII whitespace, NBSP, BOM, and the Unicode space separators. -/
def jsIsSpace (c : Char) : Bool :=
  c = ' ' || c = Char.ofNat 9 || c = Char.ofNat 10 || c = Char.ofNat 13 ||
  c = Char.ofNat 11 || c = Char.ofNat 12 || c = Char.ofNat 0xa0 ||
  c = Char.ofNat 0x1680 || (0x2000 ≤ c.toNat && c.toNat ≤ 0x200a) ||
  c = Char.ofNat 0x2028 || c = Char.ofNat 0x2029 || c = Char.ofNat 0x202f ||
  c = Char.ofNat 0x205f || c = Char.ofNat 0x3000 || c = Char.ofNat 0xfeff

/-- `String.prototype.trim`, on the character list. -/
def jsTrimList (l : List Char) : List Char :=
  ((l.dropWhile jsIsSpace).reverse.dropWhile jsIsSpace).reverse

/-- `String.prototype.trim`. -/
def jsTrim (s : String) : String :=
  ⟨jsTrimList s.data⟩

/-- `.replace(/[^\w\s]/g, ' ')`: every character that is neither a word
character nor whitespace is replaced by a single space (not deleted). -/
def stripPunct (l : List Char) : List Char :=
  l.map fun c => if jsIsWordChar c || jsIsSpace c then c else ' '

/-- `.replace(/\s+/g, ' ')`: each maximal run of whitespace becomes one space. -/
def collapseWs : List Char → List Char
  | [] => []
  | [c] => [if jsIsSpace c then ' ' else c]
  | c :: c2 :: cs =>
    if jsIsSpace c && jsIsSpace c2 then collapseWs (c2 :: cs)
    else (if jsIsSpace c then ' ' else c) :: collapseWs (c2 :: cs)

/-- `String.prototype.split(' ')` (single-space separator; an empty string
splits to one empty field, like in JavaScript). -/
def splitSpAux : List Char → List Char → List (List Char)
  | [], acc => [acc.reverse]
  | c :: cs, acc =>
    if c = ' ' then acc.reverse :: splitSpAux cs []
    else splitSpAux cs (c :: acc)

def splitSp (l : List Char) : List (List Char) :=
  splitSpAux l []

/-- Boolean infix test on character lists (`String.prototype.includes`). -/
def isPrefixB : List Char → List Char → Bool
  | [], _ => true
  | _ :: _, [] => false
  | a :: as, b :: bs => a = b && isPrefixB as bs

def isInfixB (pat : List Char) : List Char → Bool
  | [] => pat.isEmpty
  | c :: rest => isPrefixB pat (c :: rest) || isInfixB pat rest

/-- `s.includes(pat)` of JavaScript. -/
def containsSub (s pat : String) : Bool :=
  isInfixB pat.data s.data

/-! ## Title derivation (app/api/chat/route.ts, POST handler)

The new-chat branch of the POST handler derives the chat title from the first
user message:
  messageText = message.trim().replace(/[^\w\s]/g, ' ').replace(/\s+/g, ' ').trim()
then keeps whole words while `currentLength + word.length + 1 <= 35`, and
appends `...` only when some word was dropped. -/

/-- The word-accumulation loop of the title derivation (`for (const word of
words) { if (currentLength + word.length + 1 <= 35) ... else break; }`). -/
def pickTitleWords : List String → Nat → List String
  | [], _ => []
  | w :: ws, len =>
    if len + w.length + 1 ≤ 35 then w :: pickTitleWords ws (len + w.length + 1)
    else []

/-- The title derivation of the chat POST route, for a new chat created from
the first user message.  `if (message)` is the JavaScript truthiness test on
the string. -/
def deriveChatTitle (message : String) : String :=
  if message = "" then "New Chat"
  else
    let messageText := jsTrim ⟨collapseWs (stripPunct (jsTrimList message.data))⟩
    if messageText.length ≤ 35 then messageText
    else
      let words := (splitSp messageText.data).map fun w => (⟨w⟩ : String)
      let titleWords := pickTitleWords words 0
      let base := String.intercalate " " titleWords
      if titleWords.length < words.length then base ++ "..." else base

/-- An apostrophe character, written by code point. -/
def apoS : String := ⟨[Char.ofNat 39]⟩

/-- The concrete first message of the specification example:
`Hello!! How's the weather today???`. -/
def c8Input : String := "Hello!! How" ++ apoS ++ "s the weather today???"

/-- A first message whose cleaned text exceeds 35 characters, to exercise the
word-boundary truncation branch. -/
def c8LongInput : String := "aaaa bbbb cccc dddd eeee ffff gggg hhhh"

/-! ## Wire-format records and the impure environment

Timestamps arrive from the wire as a Date object, an ISO string or an epoch
number; `TsVal` is that union.  The `JsEnv` record determinizes the impure
JavaScript primitives: `now`/`now2` are successive `Date.now()` readings,
`randStr` is the printed `Math.random()` of the i-th call inside one `.map`,
`parseDate` is `new Date(string).getTime()`, `showTs` is the template-literal
string coercion of a raw timestamp value, `nowISO` is
`new Date().toISOString()` and `newUUID` is a freshly generated UUID. -/

inductive TsVal
  | date (ms : Int)
  | str (s : String)
  | num (n : Int)
deriving DecidableEq

structure JsEnv where
  now : Int
  now2 : Int
  nowISO : String
  newUUID : String
  randStr : Nat → String
  parseDate : String → Int
  showTs : TsVal → String

/-- JavaScript truthiness of a timestamp value (`0`, the empty string, `null`
and `undefined` are falsy; a Date object is always truthy). -/
def truthyTs : TsVal → Bool
  | .date _ => true
  | .str s => !(s == "")
  | .num n => !(n == 0)

/-- `new Date(x).getTime()` for a string or numeric `x` (a Date passes
through unchanged). -/
def jsDateOf (env : JsEnv) : TsVal → Int
  | .date d => d
  | .str s => env.parseDate s
  | .num n => n

/-- The nullish-coalescing operator `a ?? b` on optional values. -/
def jsNullish (a b : Option α) : Option α :=
  match a with
  | some x => some x
  | none => b

/-- The truthiness-based `a || b` chain element for timestamp-like values. -/
def jsOrTs (a : Option TsVal) (b : TsVal) : TsVal :=
  match a with
  | some v => if truthyTs v then v else b
  | none => b

/-- A wire-format message record: every field may be absent (or null), and
`sender`/`role` and `text`/`content` are the aliased shapes the server and
older clients produce. -/
structure RawMsg where
  id : Option String := none
  sender : Option String := none
  role : Option String := none
  text : Option String := none
  content : Option String := none
  timestamp : Option TsVal := none
  created_at : Option String := none
deriving DecidableEq

/-- A wire-format chat record, with the three id aliases and both timestamp
casings.  `messages := none` models an absent, null or non-array value. -/
structure RawChat where
  id : Option String := none
  _id : Option String := none
  chatId : Option String := none
  userId : Option String := none
  user_id : Option String := none
  title : Option String := none
  messages : Option (List RawMsg) := none
  createdAt : Option TsVal := none
  updatedAt : Option TsVal := none
  created_at : Option TsVal := none
  updated_at : Option TsVal := none
deriving DecidableEq

/-! ## The useChatHistory hook (hooks/use-chat-history.ts)

The embedding follows the production-hardened version of the hook (the one
with data normalization, reproduced in full in MONGODB_SETUP.md and described
by PRODUCTION_HARDENING_COMPLETE.md); part_001 holds the pre-hardening
revision of the same file. -/

/-- The canonical message produced by the hook normalizer (the `...msg`
spread also keeps unknown wire fields; they are irrelevant here and elided). -/
structure NormMsg where
  id : String
  sender : String
  role : String
  text : String
  content : String
  timestamp : Int
deriving DecidableEq

/-- The message normalizer of `fetchChatHistory` (hook, FIX 1):
  id := msg.id ?? `role-or-sender-timestamp-random`,
  sender := msg.sender ?? (from role),
  role := msg.role ?? (msg.sender === 'ai' ? 'assistant' : 'user'),
  text := msg.text ?? msg.content ?? '',
  content := msg.content ?? msg.text ?? '',
  timestamp := Date | new Date(string-or-number) | new Date(created_at) | now. -/
def normalizeHistMsg (env : JsEnv) (k : Nat) (m : RawMsg) : NormMsg :=
  { id := match m.id with
      | some i => i
      | none =>
        (m.role.getD (m.sender.getD "unknown")) ++ "-" ++
        (match m.timestamp with
          | some t => env.showTs t
          | none => toString env.now) ++ "-" ++ env.randStr k
    sender := m.sender.getD
      (if m.role = some "assistant" then "ai"
       else if m.role = some "user" then "user" else "user")
    role := m.role.getD (if m.sender = some "ai" then "assistant" else "user")
    text := m.text.getD (m.content.getD "")
    content := m.content.getD (m.text.getD "")
    timestamp := match m.timestamp with
      | some (.date d) => d
      | some (.str s) => env.parseDate s
      | some (.num n) => n
      | none => match m.created_at with
        | some ca => if ca == "" then env.now else env.parseDate ca
        | none => env.now }

/-- The canonical chat produced by the hook normalizer. -/
structure NormChat where
  id : Option String
  chatId : Option String
  userId : String
  title : String
  messages : List RawMsg
  createdAt : TsVal
  updatedAt : TsVal
deriving DecidableEq

/-- The chat normalizer of `fetchChatHistory` (hook, FIX 1):
  id := chat.id ?? chat._id ?? chat.chatId,
  chatId := chat.chatId ?? chat.id ?? chat._id,
  messages := Array.isArray(chat.messages) ? chat.messages : [],
  createdAt/updatedAt := keep string or number, else truthiness fallback
  chain ending in new Date().toISOString(),
  title := chat.title ?? 'New Chat',
  userId := chat.userId ?? chat.user_id ?? userId. -/
def normalizeChat (env : JsEnv) (uid : String) (c : RawChat) : NormChat :=
  { id := jsNullish c.id (jsNullish c._id c.chatId)
    chatId := jsNullish c.chatId (jsNullish c.id c._id)
    userId := (jsNullish c.userId c.user_id).getD uid
    title := c.title.getD "New Chat"
    messages := c.messages.getD []
    createdAt := match c.createdAt with
      | some (.str s) => .str s
      | some (.num n) => .num n
      | _ => jsOrTs c.created_at (jsOrTs c.updatedAt (jsOrTs c.updated_at (.str env.nowISO)))
    updatedAt := match c.updatedAt with
      | some (.str s) => .str s
      | some (.num n) => .num n
      | _ => jsOrTs c.updated_at (jsOrTs c.createdAt (jsOrTs c.created_at (.str env.nowISO))) }

/-- `List.map` with the call index, used to determinize the per-element
`Math.random()` calls of a JavaScript `.map`. -/
def mapWithIndexFrom (f : Nat → α → β) : Nat → List α → List β
  | _, [] => []
  | k, a :: as => f k a :: mapWithIndexFrom f (k + 1) as

def mapWithIndex (f : Nat → α → β) (l : List α) : List β :=
  mapWithIndexFrom f 0 l

/-- The `/api/chat/history` response body (`Array.isArray` guards turn a
missing or non-array field into `[]`, hence the `Option`). -/
structure ChatHistoryResponse where
  messages : Option (List RawMsg) := none
  chats : Option (List RawChat) := none

/-- The state of the useChatHistory hook: the two data arrays, the loading
flag, the error banner text, the `isFetchingRef` single-flight flag and the
`retryCountRef` counter. -/
structure HookState where
  messages : List NormMsg
  chats : List NormChat
  isLoading : Bool
  error : Option String
  isFetching : Bool
  retryCount : Nat
deriving DecidableEq

/-- A JavaScript `Error` as observed by the catch block. -/
structure JsError where
  name : String
  message : String

/-- `API_BASE_URL || 'http://localhost:5000'` (the build-time base URL;
modelled as its development default). -/
def apiBaseUrl : String := "http://localhost:5000"

/-- The error-message classification chain of the `fetchChatHistory` catch
block (lines of the hardened hook: AbortError, network, auth, database,
server, fallback). -/
def classifyFetchErr (e : JsError) : String :=
  if e.name == "AbortError" then "Request timed out - server may be slow"
  else if containsSub e.message "Failed to fetch" || containsSub e.message "NetworkError"
       || containsSub e.message "fetch" then
    "Cannot connect to backend server at " ++ apiBaseUrl ++ ". Please ensure the server is running."
  else if containsSub e.message "401" || containsSub e.message "Unauthorized"
       || containsSub e.message "NO_TOKEN" || containsSub e.message "INVALID_TOKEN" then
    "Authentication failed - please log in again"
  else if containsSub e.message "503" || containsSub e.message "DB_UNAVAILABLE"
       || containsSub e.message "DB_CONNECTION_ERROR" || containsSub e.message "TABLE_NOT_FOUND" then
    if containsSub e.message "TABLE_NOT_FOUND" || containsSub e.message "does not exist" then
      "Database tables not found - please run the Supabase schema migration (supabase-schema.sql)"
    else "Database service unavailable - please check backend configuration"
  else if containsSub e.message "500" || containsSub e.message "Internal Server Error" then
    "Server error - please check backend logs"
  else if e.message.startsWith "Failed to fetch chat history" then e.message
  else "Failed to fetch chat history: " ++ e.message

/-- The tail of the `fetchChatHistory` catch block: set the classified error,
then keep the loaded data exactly when the failure is an abort or its message
contains the substring `timeout`, and clear it otherwise. -/
def applyFetchCatch (e : JsError) (s : HookState) : HookState :=
  let s1 := { s with error := some (classifyFetchErr e) }
  if e.name == "AbortError" || containsSub e.message "timeout" then s1
  else { s1 with messages := [], chats := [] }

/-- The outcome of the single `fetch` of a history load. -/
inductive FetchOutcome
  | success (data : ChatHistoryResponse)
  | abortError
  | fetchError (msg : String)
  | httpError (errText : String)

/-- One complete invocation of `fetchChatHistory`, as a function of the hook
state, the stored auth token and the network outcome.  The result's second
component records whether a network request was issued.  The guard on
`isFetchingRef` precedes everything; the `finally` block clears `isLoading`
and the flag on every non-guarded path. -/
def fetchChatHistory (env : JsEnv) (uid : String) (token : Option String)
    (o : FetchOutcome) (isRetry : Bool) (s : HookState) : HookState × Bool :=
  if s.isFetching then (s, false)
  else
    let s1 := { s with isFetching := true, isLoading := true, error := none,
                       retryCount := if isRetry then s.retryCount + 1 else s.retryCount }
    match token with
    | none =>
      -- token validation: set the error, clear the data, throw; the catch
      -- block re-classifies the thrown message, then the finally block runs
      let eMsg := "Authentication token not found. Please log in again."
      let s2 := { s1 with error := some eMsg, messages := [], chats := [] }
      let s3 := applyFetchCatch ⟨"Error", eMsg⟩ s2
      ({ s3 with isLoading := false, isFetching := false }, false)
    | some _ =>
      match o with
      | .success data =>
        let s2 := { s1 with
          messages := mapWithIndex (normalizeHistMsg env) (data.messages.getD [])
          chats := (data.chats.getD []).map (normalizeChat env uid)
          retryCount := 0 }
        ({ s2 with isLoading := false, isFetching := false }, true)
      | .abortError =>
        let s2 := applyFetchCatch ⟨"AbortError", "signal is aborted without reason"⟩ s1
        ({ s2 with isLoading := false, isFetching := false }, true)
      | .fetchError m =>
        let s2 := applyFetchCatch ⟨"TypeError", m⟩ s1
        ({ s2 with isLoading := false, isFetching := false }, true)
      | .httpError errText =>
        let s2 := applyFetchCatch ⟨"Error", "Failed to fetch chat history: " ++ errText⟩ s1
        ({ s2 with isLoading := false, isFetching := false }, true)

/-- The outcome of the DELETE request of `clearChatHistory`. -/
inductive ClearOutcome
  | ok
  | httpFail (statusText : String)
  | thrown (msg : String)
deriving DecidableEq

/-- One complete invocation of `clearChatHistory`: reset the error, issue the
DELETE; on `response.ok` clear both arrays, otherwise the thrown or rejected
error message becomes the error state and the data is untouched. -/
def clearChatHistory (o : ClearOutcome) (s : HookState) : HookState :=
  let s1 := { s with error := none }
  match o with
  | .ok => { s1 with messages := [], chats := [] }
  | .httpFail st => { s1 with error := some ("Failed to clear chat history: " ++ st) }
  | .thrown m => { s1 with error := some m }

/-! ## The ChatUIWithHistory component (components/chat-ui-with-history.tsx) -/

/-- The message shape of the component state: the messages synthesized by
`handleSubmit` carry no timestamp, the normalized history ones do. -/
structure UiMsg where
  id : String
  role : String
  content : String
  timestamp : Option Int := none
deriving DecidableEq

/-- The shared timestamp rule of the two in-component normalizers:
`msg.timestamp instanceof Date ? msg.timestamp : msg.timestamp ? new
Date(msg.timestamp) : new Date()`. -/
def uiMsgTimestamp (env : JsEnv) (m : RawMsg) : Int :=
  match m.timestamp with
  | some (.date d) => d
  | some t => if truthyTs t then jsDateOf env t else env.now
  | none => env.now

/-- The `normalizedCurrentChatMessages` element normalizer (component):
  id := msg.id ?? `history-timestamp-random`,
  role := (msg.sender === 'ai' || msg.role === 'assistant') ? 'assistant' : 'user',
  content := msg.text ?? msg.content ?? ''. -/
def normalizeUiMsg (env : JsEnv) (k : Nat) (m : RawMsg) : UiMsg :=
  { id := m.id.getD ("history-" ++
      (match m.timestamp with
        | some t => env.showTs t
        | none => toString env.now) ++ "-" ++ env.randStr k)
    role := if m.sender == some "ai" || m.role == some "assistant" then "assistant" else "user"
    content := m.text.getD (m.content.getD "")
    timestamp := some (uiMsgTimestamp env m) }

/-- The element normalizer of `handleSelectChat` (component): identical to
`normalizeUiMsg` except for the synthesized id shape
`sender-or-role-timestamp-random`. -/
def normalizeSelMsg (env : JsEnv) (k : Nat) (m : RawMsg) : UiMsg :=
  { id := m.id.getD ((m.sender.getD (m.role.getD "unknown")) ++ "-" ++
      (match m.timestamp with
        | some t => env.showTs t
        | none => toString env.now) ++ "-" ++ env.randStr k)
    role := if m.sender == some "ai" || m.role == some "assistant" then "assistant" else "user"
    content := m.text.getD (m.content.getD "")
    timestamp := some (uiMsgTimestamp env m) }

/-- The component state relevant to the send/select/new-chat pipeline:
`localMessages` is the optimistic buffer, `aiMessages` the useChat message
array, `historyChats` mirrors the hook's `chats` state, `toasts` records the
user-visible toast notifications in order.  (`setChatMessages`, which writes
the hook's flattened `messages` state, is not read by any of the verified
paths and is left unmodelled.) -/
structure CompState where
  localMessages : List UiMsg
  aiMessages : List UiMsg
  historyChats : List NormChat
  currentChatId : String
  input : String
  attachedFilesCount : Nat
  isSendingMessage : Bool
  isWebSearching : Bool
  isUploading : Bool
  toasts : List String
deriving DecidableEq

/-- `historyChats.find(chat => chat?.chatId === currentChatId || chat?.id ===
currentChatId)`. -/
def findChatById (chats : List NormChat) (cid : String) : Option NormChat :=
  chats.find? fun c => c.chatId == some cid || c.id == some cid

/-- `currentChatMessages`: the selected chat's message array, `[]` when no
chat matches. -/
def currentChatMessages (s : CompState) : List RawMsg :=
  match findChatById s.historyChats s.currentChatId with
  | some c => c.messages
  | none => []

/-- `normalizedCurrentChatMessages` of the component. -/
def normalizedCurrentChatMessages (env : JsEnv) (s : CompState) : List UiMsg :=
  mapWithIndex (normalizeUiMsg env) (currentChatMessages s)

/-- The visible message list:
`localMessages.length > 0 ? [...normalizedCurrentChatMessages, ...localMessages]
 : safeAiMessages.length > 0 ? safeAiMessages : normalizedCurrentChatMessages`. -/
def allMessages (env : JsEnv) (s : CompState) : List UiMsg :=
  if s.localMessages.length > 0 then
    normalizedCurrentChatMessages env s ++ s.localMessages
  else if s.aiMessages.length > 0 then s.aiMessages
  else normalizedCurrentChatMessages env s

/-- The `searchKeywords` list of `shouldTriggerWebSearch`. -/
def searchKeywords : List String :=
  ["latest", "today", "current", "news", "weather", "recent",
   "now", "happening", "breaking", "update", "trending",
   "what is", "who is", "when did", "where is", "how to",
   "best", "top", "new", "recent", "2024", "2025"]

/-- `String.prototype.toLowerCase`, on the character list (structurally
recursive so that concrete states evaluate inside the kernel). -/
def jsToLower (s : String) : String :=
  ⟨s.data.map Char.toLower⟩

/-- `shouldTriggerWebSearch`: some keyword occurs in the lowercased message. -/
def shouldTriggerWebSearch (message : String) : Bool :=
  searchKeywords.any fun kw => containsSub (jsToLower message) kw

/-- The network dispatch issued by `handleSubmit`: the multipart file path or
the direct JSON path, carrying the captured trimmed message. -/
inductive Dispatch
  | multipart (msg : String)
  | json (msg : String)
deriving DecidableEq

/-- The user message synthesized by `handleSubmit`:
`{ id: user-Date.now(), role: 'user', content: msg }`. -/
def sendUserMsg (env : JsEnv) (msg : String) : UiMsg :=
  { id := "user-" ++ toString env.now, role := "user", content := msg }

/-- The empty assistant placeholder synthesized by `handleSubmit`:
`{ id: assistant-Date.now(), role: 'assistant', content: '' }`. -/
def sendPlaceholder (env : JsEnv) : UiMsg :=
  { id := "assistant-" ++ toString env.now2, role := "assistant", content := "" }

/-- The synchronous prefix of `handleSubmit`, up to its first `await`:
validate the trimmed input (the only synchronous rejection), set the
web-search flag, clear the input, then either enter the multipart branch
(files attached) or synthesize the user message and the empty assistant
placeholder and append both to `localMessages` (seeding it with
`normalizedCurrentChatMessages` when it was empty) and to the useChat array.
Returns the new state and the dispatch, `none` when rejected. -/
def handleSubmitPre (env : JsEnv) (s : CompState) : CompState × Option Dispatch :=
  let msg := jsTrim s.input
  if msg == "" then (s, none)
  else
    let s1 := if shouldTriggerWebSearch msg then { s with isWebSearching := true } else s
    let s2 := { s1 with input := "" }
    if s2.attachedFilesCount > 0 then
      ({ s2 with isUploading := true }, some (.multipart msg))
    else
      let userMessage : UiMsg := sendUserMsg env msg
      let assistantPlaceholder : UiMsg := sendPlaceholder env
      ({ s2 with
          localMessages :=
            if s2.localMessages.length > 0 then s2.localMessages ++ [userMessage, assistantPlaceholder]
            else normalizedCurrentChatMessages env s2 ++ [userMessage, assistantPlaceholder]
          aiMessages := s2.aiMessages ++ [userMessage, assistantPlaceholder]
          isSendingMessage := true },
       some (.json msg))

/-- A stream chunk patch of the no-files branch: replace the content of the
message with the placeholder's id in both arrays, never its id. -/
def streamPatch (assistantId : String) (text : String) (s : CompState) : CompState :=
  { s with
    aiMessages := s.aiMessages.map fun m => if m.id == assistantId then { m with content := text } else m
    localMessages := s.localMessages.map fun m => if m.id == assistantId then { m with content := text } else m }

/-- The catch block of the no-files branch of `handleSubmit`: toast the
error, stop the loading flags, and filter the assistant placeholder (by its
id) out of both arrays. -/
def handleSubmitCatch (assistantId : String) (s : CompState) : CompState :=
  { s with
    toasts := s.toasts ++ ["Failed to send message. Please try again."]
    isSendingMessage := false
    isWebSearching := false
    localMessages := s.localMessages.filter fun m => !(m.id == assistantId)
    aiMessages := s.aiMessages.filter fun m => !(m.id == assistantId) }

/-- The outcome of the `/api/chat/create` call of `handleNewChat`; `ok`
carries the chat list delivered by the follow-up `fetchChatHistory` refresh. -/
inductive CreateChatOutcome
  | ok (refreshedChats : List NormChat)
  | httpFail
  | thrown
deriving DecidableEq

/-- One complete invocation of `handleNewChat`: generate a fresh UUID chat
id, clear the useChat array and the optimistic buffer (and the hook messages
via `setChatMessages`), then attempt the non-fatal backend registration.
`hasAuth` is the `!token || !userId` guard. -/
def handleNewChat (env : JsEnv) (hasAuth : Bool) (o : CreateChatOutcome)
    (s : CompState) : CompState :=
  let s1 := { s with currentChatId := env.newUUID, aiMessages := [], localMessages := [] }
  if !hasAuth then { s1 with toasts := s1.toasts ++ ["New chat started (local only)"] }
  else
    match o with
    | .ok refreshed => { s1 with historyChats := refreshed, toasts := s1.toasts ++ ["New chat started"] }
    | .httpFail => { s1 with toasts := s1.toasts ++ ["New chat started"] }
    | .thrown => { s1 with toasts := s1.toasts ++ ["New chat started (local only)"] }

/-- JavaScript truthiness of an optional string (`!selectedChat?.id`). -/
def jsTruthyS : Option String → Bool
  | some x => !(x == "")
  | none => false

/-- One complete invocation of `handleSelectChat`: the `new-chat` sentinel
(or an empty id) delegates to `handleNewChat`; an id not found among the
fetched chats (or found with no truthy id alias) clears the useChat array and
returns; otherwise the active chat id is set first, then the optimistic
buffer is cleared and the useChat array is repopulated with the selected
chat's normalized messages. -/
def handleSelectChat (env : JsEnv) (hasAuth : Bool) (o : CreateChatOutcome)
    (chatId : String) (s : CompState) : CompState :=
  if chatId == "" || chatId == "new-chat" then handleNewChat env hasAuth o s
  else
    match findChatById s.historyChats chatId with
    | none => { s with aiMessages := [] }
    | some c =>
      if !(jsTruthyS c.id) && !(jsTruthyS c.chatId) then { s with aiMessages := [] }
      else
        let validChatId := (jsNullish c.chatId c.id).getD chatId
        let normalizedMessages := mapWithIndex (normalizeSelMsg env) c.messages
        { s with currentChatId := validChatId, localMessages := [], aiMessages := normalizedMessages }

/-! ## Concrete sample values used by the witnesses and counterexamples -/

/-- A concrete environment: both `Date.now()` readings are 7, every
`Math.random()` prints `0.5`, every string parses to epoch 0. -/
def exEnv : JsEnv :=
  { now := 7, now2 := 7, nowISO := "iso0", newUUID := "uuid-1",
    randStr := fun _ => "0.5", parseDate := fun _ => 0, showTs := fun _ => "ts" }

/-- A server-side message record in `sender`/`text` shape. -/
def exRawMsg : RawMsg :=
  { id := some "m1", sender := some "ai", text := some "hello", timestamp := some (.num 100) }

/-- A normalized chat holding one message, as the hook delivers it. -/
def exChat : NormChat :=
  { id := some "c1", chatId := some "c1", userId := "u1", title := "Chat 1",
    messages := [exRawMsg], createdAt := .str "t0", updatedAt := .str "t0" }

/-- The component state reached right after selecting `exChat`: the hook
holds the chat, `handleSelectChat` has populated the useChat array with its
one normalized message and cleared the optimistic buffer, and the user has
typed `hi`. -/
def c1State : CompState :=
  { localMessages := [], aiMessages := [normalizeSelMsg exEnv 0 exRawMsg],
    historyChats := [exChat], currentChatId := "c1", input := "hi",
    attachedFilesCount := 0, isSendingMessage := false, isWebSearching := false,
    isUploading := false, toasts := [] }

/-- An optimistic message sitting in the local buffer. -/
def exUiMsg : UiMsg := { id := "local-1", role := "user", content := "draft" }

/-- A component state with one optimistic message in the local buffer and no
fetched chats. -/
def c2State : CompState :=
  { localMessages := [exUiMsg], aiMessages := [], historyChats := [],
    currentChatId := "c0", input := "", attachedFilesCount := 0,
    isSendingMessage := false, isWebSearching := false, isUploading := false,
    toasts := [] }

/-- A component state like `c1State` but with a non-empty optimistic buffer. -/
def c7State : CompState := { c1State with localMessages := [exUiMsg] }

/-- A normalized message as stored in the hook state. -/
def exNormMsg : NormMsg :=
  { id := "n1", sender := "ai", role := "assistant", text := "t", content := "t", timestamp := 5 }

/-- A hook state holding previously loaded data, with no fetch in flight. -/
def c5State : HookState :=
  { messages := [exNormMsg], chats := [exChat], isLoading := false,
    error := none, isFetching := false, retryCount := 0 }

/-- A wire message whose `content` is present but empty while `text` is not,
the shape on which the claimed content rule and the code disagree. -/
def c3RawCex : RawMsg := { content := some "", text := some "hi" }

/-- The content rule exactly as the specification words it: `content` if it
is a non-empty string, else `text`, else the empty string.  (Stated from the
spec, for comparison against the code's normalizer.) -/
def specContentOf (m : RawMsg) : String :=
  match m.content with
  | some cv => if cv == "" then m.text.getD "" else cv
  | none => m.text.getD ""

/-- A wire chat carrying the identifier only under the `_id` alias. -/
def c4Chat : RawChat := { _id := some "abc-123" }

/-! ## Theorems -/

/-- Claim C8, counterexample: on the first message `Hello!! How's the weather
today???` the title-derivation code does not produce the claimed literal
`Hello Hows the weather today` — the regex replaces each stripped character
with a space, so the apostrophe of `How's` leaves `How s`. -/
theorem c8_title_counterexample :
    deriveChatTitle c8Input ≠ "Hello Hows the weather today" := by decide

/-- Claim C8 (amended): characters matching `[^\w\s]` are replaced with a
space (not removed) before whitespace collapsing, so the example first
message yields the literal title `Hello How s the weather today`; a cleaned
text longer than 35 characters is truncated at a word boundary with `...`
appended. -/
theorem c8_title_derivation :
    deriveChatTitle c8Input = "Hello How s the weather today" ∧
    deriveChatTitle c8LongInput = "aaaa bbbb cccc dddd eeee ffff gggg..." := by decide

/-- Claim C3, counterexample: on a record with `content: ""` and
`text: "hi"` the normalizer returns the empty `content` (nullish coalescing
keeps a present empty string), not `hi` as the claimed non-empty-content rule
demands. -/
theorem c3_normalizer_counterexample :
    (normalizeHistMsg exEnv 0 c3RawCex).content ≠ specContentOf c3RawCex := by decide

/-- Claim C3 (amended): the history normalizer takes `role` from the record
whenever present — without any validity filtering — and otherwise derives
`assistant` exactly when `sender` is `ai` and `user` otherwise; it takes
`content` from the record whenever present — including a present empty
string — and otherwise falls back to `text`, else the empty string. -/
theorem c3_normalizer_amended (env : JsEnv) (k : Nat) (m : RawMsg) :
    (∀ r, m.role = some r → (normalizeHistMsg env k m).role = r) ∧
    (m.role = none →
      (normalizeHistMsg env k m).role = if m.sender = some "ai" then "assistant" else "user") ∧
    (∀ cv, m.content = some cv → (normalizeHistMsg env k m).content = cv) ∧
    (m.content = none → (normalizeHistMsg env k m).content = m.text.getD "") := by
  refine ⟨?_, ?_, ?_, ?_⟩
  · intro r hr; simp [normalizeHistMsg, hr]
  · intro hr; simp [normalizeHistMsg, hr]
  · intro cv hc; simp [normalizeHistMsg, hc]
  · intro hc; simp [normalizeHistMsg, hc]

theorem c3_normalizer_witness :
    (normalizeHistMsg exEnv 0 exRawMsg).role = "assistant" ∧
    (normalizeHistMsg exEnv 0 exRawMsg).content = "hello" := by
  have h := c3_normalizer_amended exEnv 0 exRawMsg
  exact ⟨by simpa using h.2.1 rfl, by simpa using h.2.2.2 rfl⟩

/-- Claim C4: whenever a fetched chat record carries one identifier value
under any non-empty subset of the aliases `id`, `_id`, `chatId`, the
normalized chat's `id` and `chatId` both equal that value. -/
theorem c4_id_alias_reconciliation (env : JsEnv) (uid v : String) (c : RawChat)
    (h1 : c.id = none ∨ c.id = some v)
    (h2 : c._id = none ∨ c._id = some v)
    (h3 : c.chatId = none ∨ c.chatId = some v)
    (h4 : c.id = some v ∨ c._id = some v ∨ c.chatId = some v) :
    (normalizeChat env uid c).id = some v ∧ (normalizeChat env uid c).chatId = some v := by
  rcases h1 with h1 | h1 <;> rcases h2 with h2 | h2 <;> rcases h3 with h3 | h3 <;>
    simp [normalizeChat, jsNullish, h1, h2, h3] at h4 ⊢

theorem c4_id_alias_witness :
    (normalizeChat exEnv "u1" c4Chat).id = some "abc-123" ∧
    (normalizeChat exEnv "u1" c4Chat).chatId = some "abc-123" :=
  c4_id_alias_reconciliation exEnv "u1" "abc-123" c4Chat
    (Or.inl rfl) (Or.inr rfl) (Or.inl rfl) (Or.inr (Or.inl rfl))

/-- Claim C10: `clearChatHistory` leaves the messages and chats untouched
and ends with a non-null error on any failing DELETE, and resets both to
empty (with the error still null) exactly on a successful response. -/
theorem c10_clear_history_errors (o : ClearOutcome) (s : HookState) :
    (o ≠ .ok →
      (clearChatHistory o s).messages = s.messages ∧
      (clearChatHistory o s).chats = s.chats ∧
      (clearChatHistory o s).error.isSome = true) ∧
    (o = .ok →
      (clearChatHistory o s).messages = [] ∧
      (clearChatHistory o s).chats = [] ∧
      (clearChatHistory o s).error = none) := by
  cases o <;> simp [clearChatHistory]

theorem c10_clear_history_witness :
    ((clearChatHistory (.httpFail "Internal Server Error") c5State).messages = c5State.messages ∧
      (clearChatHistory (.httpFail "Internal Server Error") c5State).chats = c5State.chats ∧
      (clearChatHistory (.httpFail "Internal Server Error") c5State).error.isSome = true) ∧
    ((clearChatHistory .ok c5State).messages = [] ∧
      (clearChatHistory .ok c5State).chats = [] ∧
      (clearChatHistory .ok c5State).error = none) := by
  exact ⟨(c10_clear_history_errors (.httpFail "Internal Server Error") c5State).1 (by decide),
         (c10_clear_history_errors .ok c5State).2 rfl⟩

/-- Claim C5, counterexample: a failing load that is NOT the 5-second abort
timeout — an HTTP error whose server-provided text happens to contain the
substring `timeout` — keeps the stale chats instead of clearing them,
because the catch block tests `err.message.includes('timeout')` and not only
`AbortError`. -/
theorem c5_timeout_substring_counterexample :
    (fetchChatHistory exEnv "u1" (some "tok") (.httpError "upstream timeout") false c5State).1.chats
        = c5State.chats ∧
    c5State.chats ≠ [] ∧
    (fetchChatHistory exEnv "u1" (some "tok") (.httpError "upstream timeout") false c5State).1.error.isSome
        = true := by decide

/-- Claim C5 (amended): when no fetch is in flight, an aborted (timed-out)
load preserves the previously loaded messages and chats and sets the timeout
error message; every other failing load — an HTTP error or a network
rejection whose thrown message does not contain the substring `timeout`, or
a missing auth token — sets a non-null error and clears both arrays. -/
theorem c5_error_state_amended (env : JsEnv) (uid : String) (s : HookState)
    (hf : s.isFetching = false) :
    (∀ t isRetry,
      (fetchChatHistory env uid (some t) .abortError isRetry s).1.messages = s.messages ∧
      (fetchChatHistory env uid (some t) .abortError isRetry s).1.chats = s.chats ∧
      (fetchChatHistory env uid (some t) .abortError isRetry s).1.error =
        some "Request timed out - server may be slow") ∧
    (∀ t isRetry errText,
      containsSub ("Failed to fetch chat history: " ++ errText) "timeout" = false →
      (fetchChatHistory env uid (some t) (.httpError errText) isRetry s).1.error.isSome = true ∧
      (fetchChatHistory env uid (some t) (.httpError errText) isRetry s).1.messages = [] ∧
      (fetchChatHistory env uid (some t) (.httpError errText) isRetry s).1.chats = []) ∧
    (∀ t isRetry m,
      containsSub m "timeout" = false →
      (fetchChatHistory env uid (some t) (.fetchError m) isRetry s).1.error.isSome = true ∧
      (fetchChatHistory env uid (some t) (.fetchError m) isRetry s).1.messages = [] ∧
      (fetchChatHistory env uid (some t) (.fetchError m) isRetry s).1.chats = []) ∧
    (∀ o isRetry,
      (fetchChatHistory env uid none o isRetry s).1.error.isSome = true ∧
      (fetchChatHistory env uid none o isRetry s).1.messages = [] ∧
      (fetchChatHistory env uid none o isRetry s).1.chats = []) := by
  refine ⟨?_, ?_, ?_, ?_⟩
  · intro t isRetry
    simp [fetchChatHistory, hf, applyFetchCatch, classifyFetchErr]
  · intro t isRetry errText hct
    simp [fetchChatHistory, hf, applyFetchCatch, hct]
  · intro t isRetry m hct
    simp [fetchChatHistory, hf, applyFetchCatch, hct]
  · intro o isRetry
    simp [fetchChatHistory, hf, applyFetchCatch]

theorem c5_error_state_witness :
    ((fetchChatHistory exEnv "u1" (some "tok") .abortError false c5State).1.messages = c5State.messages ∧
      (fetchChatHistory exEnv "u1" (some "tok") .abortError false c5State).1.chats = c5State.chats ∧
      (fetchChatHistory exEnv "u1" (some "tok") .abortError false c5State).1.error =
        some "Request timed out - server may be slow") ∧
    ((fetchChatHistory exEnv "u1" (some "tok") (.httpError "boom") false c5State).1.error.isSome = true ∧
      (fetchChatHistory exEnv "u1" (some "tok") (.httpError "boom") false c5State).1.messages = [] ∧
      (fetchChatHistory exEnv "u1" (some "tok") (.httpError "boom") false c5State).1.chats = []) := by
  have h := c5_error_state_amended exEnv "u1" c5State rfl
  exact ⟨h.1 "tok" false, h.2.1 "tok" false "boom" (by decide)⟩

/-- Claim C6: the single-flight guard — a `fetchChatHistory` invocation that
finds a fetch already in flight returns at once, issuing no network request
and leaving the whole hook state (messages, chats, isLoading, error)
untouched; and every non-guarded invocation ends with the in-flight flag
cleared, whatever the token or the network outcome. -/
theorem c6_single_flight (env : JsEnv) (uid : String) (token : Option String)
    (o : FetchOutcome) (isRetry : Bool) (s : HookState) :
    (s.isFetching = true → fetchChatHistory env uid token o isRetry s = (s, false)) ∧
    (s.isFetching = false → (fetchChatHistory env uid token o isRetry s).1.isFetching = false) := by
  constructor
  · intro h; simp [fetchChatHistory, h]
  · intro h; cases token <;> [skip; cases o] <;> simp [fetchChatHistory, h]

theorem c6_single_flight_witness :
    fetchChatHistory exEnv "u1" (some "tok") .abortError false { c5State with isFetching := true }
        = ({ c5State with isFetching := true }, false) ∧
    (fetchChatHistory exEnv "u1" (some "tok") .abortError false c5State).1.isFetching = false := by
  exact ⟨(c6_single_flight exEnv "u1" (some "tok") .abortError false
            { c5State with isFetching := true }).1 rfl,
         (c6_single_flight exEnv "u1" (some "tok") .abortError false c5State).2 rfl⟩

/-- Claim C9: a send whose trimmed input is empty changes nothing — the
whole component state (hence the visible message list) is untouched and no
dispatch is issued — and this is the only synchronous rejection: any
non-empty trimmed input always produces a dispatch. -/
theorem c9_empty_input_noop (env : JsEnv) (s : CompState) :
    (jsTrim s.input = "" → handleSubmitPre env s = (s, none)) ∧
    (jsTrim s.input ≠ "" → (handleSubmitPre env s).2 ≠ none) := by
  constructor
  · intro h; simp [handleSubmitPre, h]
  · intro h
    have hb : (jsTrim s.input == "") = false := beq_eq_false_iff_ne.mpr h
    simp only [handleSubmitPre, hb, Bool.false_eq_true, if_false]
    split <;> split <;> simp

theorem c9_empty_input_witness :
    handleSubmitPre exEnv { c1State with input := "   " } = ({ c1State with input := "   " }, none) ∧
    (handleSubmitPre exEnv c1State).2 ≠ none := by
  exact ⟨(c9_empty_input_noop exEnv { c1State with input := "   " }).1 (by decide),
         (c9_empty_input_noop exEnv c1State).2 (by decide)⟩

/-- Claim C2, counterexample: selecting a chat id that is not among the
fetched chats leaves the optimistic buffer untouched — the not-found branch
clears the useChat array but never calls `setLocalMessages([])` — so an
optimistic message survives the switch. -/
theorem c2_notfound_counterexample :
    (handleSelectChat exEnv true .httpFail "missing-chat" c2State).localMessages = [exUiMsg] ∧
    ([exUiMsg] : List UiMsg) ≠ [] := by decide

/-- Claim C2 (amended): the optimistic buffer is empty after `handleNewChat`
and after every `handleSelectChat` whose id is the new-chat sentinel or is
found among the fetched chats with a truthy id alias; the not-found branch,
however, leaves the buffer unchanged. -/
theorem c2_switch_clears_amended (env : JsEnv) (hasAuth : Bool) (o : CreateChatOutcome)
    (chatId : String) (s : CompState) :
    (handleNewChat env hasAuth o s).localMessages = [] ∧
    (chatId = "" ∨ chatId = "new-chat" →
      (handleSelectChat env hasAuth o chatId s).localMessages = []) ∧
    (∀ c, findChatById s.historyChats chatId = some c →
      (jsTruthyS c.id || jsTruthyS c.chatId) = true →
      (handleSelectChat env hasAuth o chatId s).localMessages = []) := by
  have hnew : (handleNewChat env hasAuth o s).localMessages = [] := by
    cases hasAuth <;> cases o <;> simp [handleNewChat]
  refine ⟨hnew, ?_, ?_⟩
  · intro h
    have hs : (chatId == "" || chatId == "new-chat") = true := by
      rcases h with h | h <;> simp [h]
    simp [handleSelectChat, hs, hnew]
  · intro c hfind htruthy
    by_cases hs : (chatId == "" || chatId == "new-chat") = true
    · simp [handleSelectChat, hs, hnew]
    · have hid : (!jsTruthyS c.id && !jsTruthyS c.chatId) = false := by
        cases h1 : jsTruthyS c.id <;> cases h2 : jsTruthyS c.chatId <;> simp_all
      simp [handleSelectChat, hs, hfind, hid]

theorem c2_switch_clears_witness :
    (handleSelectChat exEnv true (.ok []) "c1" c1State).localMessages = [] ∧
    (handleNewChat exEnv true (.ok []) c2State).localMessages = [] := by
  exact ⟨(c2_switch_clears_amended exEnv true (.ok []) "c1" c1State).2.2 exChat
           (by decide) (by decide),
         (c2_switch_clears_amended exEnv true (.ok []) "c1" c2State).1⟩

/-- Claim C1, evaluation of the defect: in the state reached right after
selecting a chat with one history message (optimistic buffer empty), the
visible list holds 1 message; a send of `hi` dispatches the JSON call but
leaves the visible list at 4 messages — the seeded optimistic buffer already
contains the normalized history, and `allMessages` prepends that history
again — instead of the claimed 1 + 2 = 3. -/
theorem c1_optimistic_growth_evaluation :
    (allMessages exEnv c1State).length = 1 ∧
    (handleSubmitPre exEnv c1State).2 = some (.json "hi") ∧
    (allMessages exEnv (handleSubmitPre exEnv c1State).1).length = 4 := by decide

/-- Identifiers synthesized for the user message and the assistant
placeholder of one send never collide, whatever the two timestamps. -/
theorem user_id_ne_assistant_id (a b : String) :
    ("user-" ++ a : String) ≠ ("assistant-" ++ b : String) := by
  intro h
  have h2 : ("user-" ++ a).data = ("assistant-" ++ b).data := congrArg String.data h
  rw [String.data_append, String.data_append] at h2
  have hu : ("user-" : String).data = ['u', 's', 'e', 'r', '-'] := rfl
  have hb : ("assistant-" : String).data = ['a', 's', 's', 'i', 's', 't', 'a', 'n', 't', '-'] := rfl
  rw [hu, hb] at h2
  simp at h2

/-- Filtering by a placeholder id leaves a list of messages with other ids
unchanged. -/
theorem filter_ne_id_eq_self (pid : String) (L : List UiMsg)
    (h : ∀ m ∈ L, m.id ≠ pid) : (L.filter fun m => !(m.id == pid)) = L := by
  refine List.filter_eq_self.mpr fun m hm => ?_
  simp [h m hm]

/-- A characterization of the synchronous prefix of `handleSubmit` in the
no-files case with a non-empty trimmed input: the two synthesized messages
are appended to both arrays (the optimistic buffer being seeded with the
normalized history when empty), the input is cleared and the JSON dispatch
is issued. -/
theorem handleSubmitPre_noFiles (env : JsEnv) (s : CompState)
    (hmsg : jsTrim s.input ≠ "") (hfiles : s.attachedFilesCount = 0) :
    handleSubmitPre env s =
      ({ s with
          input := ""
          isWebSearching := shouldTriggerWebSearch (jsTrim s.input) || s.isWebSearching
          localMessages :=
            (if s.localMessages.length > 0 then s.localMessages
             else normalizedCurrentChatMessages env s) ++
            [sendUserMsg env (jsTrim s.input), sendPlaceholder env]
          aiMessages := s.aiMessages ++
            [sendUserMsg env (jsTrim s.input), sendPlaceholder env]
          isSendingMessage := true },
       some (.json (jsTrim s.input))) := by
  have hb : (jsTrim s.input == "") = false := beq_eq_false_iff_ne.mpr hmsg
  simp only [handleSubmitPre, hb, Bool.false_eq_true, if_false]
  cases htr : shouldTriggerWebSearch (jsTrim s.input) <;>
    simp [hfiles, normalizedCurrentChatMessages, currentChatMessages, findChatById] <;>
    split <;> rfl

/-- Claim C7, counterexample: in the post-chat-selection state (optimistic
buffer empty, one history message visible), a send of `hi` followed by a
failed network call does NOT return the visible list to the pre-send state
plus the user message — the rollback removes the placeholder from both
stores, but the buffer keeps the seeded history copy, which `allMessages`
prepends a second time. -/
theorem c7_rollback_counterexample :
    allMessages exEnv
        (handleSubmitCatch (sendPlaceholder exEnv).id (handleSubmitPre exEnv c1State).1)
      ≠ allMessages exEnv c1State ++ [sendUserMsg exEnv "hi"] := by decide

/-- Claim C7 (amended): when the no-files send fails, the assistant
placeholder appended by that send is filtered out of both message stores by
its id while the user message is retained, and a user-visible error toast is
surfaced; the useChat array returns exactly to its pre-send value plus the
user message, and the visible list does too provided the optimistic buffer
was non-empty before the send (when it was empty, the buffer keeps the
seeded normalized history plus the user message).  The hypotheses state that
the placeholder id is fresh for the pre-send stores. -/
theorem c7_rollback_amended (env : JsEnv) (s : CompState)
    (hmsg : jsTrim s.input ≠ "") (hfiles : s.attachedFilesCount = 0)
    (hl : ∀ m ∈ s.localMessages, m.id ≠ (sendPlaceholder env).id)
    (ha : ∀ m ∈ s.aiMessages, m.id ≠ (sendPlaceholder env).id)
    (hn : ∀ m ∈ normalizedCurrentChatMessages env s, m.id ≠ (sendPlaceholder env).id) :
    (handleSubmitCatch (sendPlaceholder env).id (handleSubmitPre env s).1).aiMessages
        = s.aiMessages ++ [sendUserMsg env (jsTrim s.input)] ∧
    (handleSubmitCatch (sendPlaceholder env).id (handleSubmitPre env s).1).localMessages
        = (if s.localMessages.length > 0 then s.localMessages
           else normalizedCurrentChatMessages env s) ++ [sendUserMsg env (jsTrim s.input)] ∧
    (s.localMessages ≠ [] →
      allMessages env (handleSubmitCatch (sendPlaceholder env).id (handleSubmitPre env s).1)
        = allMessages env s ++ [sendUserMsg env (jsTrim s.input)]) ∧
    (handleSubmitCatch (sendPlaceholder env).id (handleSubmitPre env s).1).toasts
        = s.toasts ++ ["Failed to send message. Please try again."] := by
  rw [handleSubmitPre_noFiles env s hmsg hfiles]
  have hup : ((sendUserMsg env (jsTrim s.input)).id == (sendPlaceholder env).id) = false :=
    beq_eq_false_iff_ne.mpr (user_id_ne_assistant_id _ _)
  have hfilter2 :
      (([sendUserMsg env (jsTrim s.input), sendPlaceholder env] : List UiMsg).filter
        fun m => !(m.id == (sendPlaceholder env).id)) = [sendUserMsg env (jsTrim s.input)] := by
    simp [List.filter_cons, hup]
  have hkeepL : ∀ L : List UiMsg, (∀ m ∈ L, m.id ≠ (sendPlaceholder env).id) →
      ((L ++ [sendUserMsg env (jsTrim s.input), sendPlaceholder env]).filter
        fun m => !(m.id == (sendPlaceholder env).id)) =
      L ++ [sendUserMsg env (jsTrim s.input)] := by
    intro L hL
    rw [List.filter_append, filter_ne_id_eq_self _ L hL, hfilter2]
  have hai : (handleSubmitCatch (sendPlaceholder env).id
      ({ s with
          input := ""
          isWebSearching := shouldTriggerWebSearch (jsTrim s.input) || s.isWebSearching
          localMessages :=
            (if s.localMessages.length > 0 then s.localMessages
             else normalizedCurrentChatMessages env s) ++
            [sendUserMsg env (jsTrim s.input), sendPlaceholder env]
          aiMessages := s.aiMessages ++
            [sendUserMsg env (jsTrim s.input), sendPlaceholder env]
          isSendingMessage := true } : CompState)).aiMessages
      = s.aiMessages ++ [sendUserMsg env (jsTrim s.input)] :=
    hkeepL s.aiMessages ha
  have hloc : (handleSubmitCatch (sendPlaceholder env).id
      ({ s with
          input := ""
          isWebSearching := shouldTriggerWebSearch (jsTrim s.input) || s.isWebSearching
          localMessages :=
            (if s.localMessages.length > 0 then s.localMessages
             else normalizedCurrentChatMessages env s) ++
            [sendUserMsg env (jsTrim s.input), sendPlaceholder env]
          aiMessages := s.aiMessages ++
            [sendUserMsg env (jsTrim s.input), sendPlaceholder env]
          isSendingMessage := true } : CompState)).localMessages
      = (if s.localMessages.length > 0 then s.localMessages
         else normalizedCurrentChatMessages env s) ++ [sendUserMsg env (jsTrim s.input)] := by
    by_cases hL : s.localMessages.length > 0
    · rw [if_pos hL]
      exact hkeepL s.localMessages hl
    · rw [if_neg hL]
      exact hkeepL (normalizedCurrentChatMessages env s) hn
  refine ⟨hai, hloc, ?_, rfl⟩
  intro hne
  have hL : s.localMessages.length > 0 := List.length_pos.mpr hne
  rw [if_pos hL] at hai hloc ⊢
  simp only [allMessages, hloc, hai]
  have hlen : (s.localMessages ++ [sendUserMsg env (jsTrim s.input)]).length > 0 := by simp
  rw [if_pos hlen, if_pos hL, List.append_assoc]
  rfl

theorem c7_rollback_witness :
    (handleSubmitCatch (sendPlaceholder exEnv).id (handleSubmitPre exEnv c7State).1).aiMessages
        = c7State.aiMessages ++ [sendUserMsg exEnv (jsTrim c7State.input)] ∧
    allMessages exEnv
        (handleSubmitCatch (sendPlaceholder exEnv).id (handleSubmitPre exEnv c7State).1)
        = allMessages exEnv c7State ++ [sendUserMsg exEnv (jsTrim c7State.input)] := by
  have h := c7_rollback_amended exEnv c7State (by decide) (by decide)
    (by decide) (by decide) (by decide)
  exact ⟨h.1, h.2.2.1 (by decide)⟩

end Rovoxa
